import Mathlib

/-!
Verification of the carousel / slide-navigation and scroll-driven reveal
engine of the promotional game site, together with its identity-service
error mapping and token-parsing utilities.

Each definition is a shallow embedding of the corresponding JavaScript
function; file and line references point into the repository sources
(`js/api-client.js` and the Firebase auth module).
-/

namespace Vuonruc

/-! ## Cursor arithmetic (js/api-client.js, StoryCarousel and
AdvancedHeroCarousel)

JavaScript's `%` on numbers is the truncating remainder; we embed it as
`Int.tmod`.  Cursors and slide counts are integers. -/

/-- JavaScript remainder operator `a % b` on integer-valued numbers. -/
def jsRem (a b : Int) : Int := Int.tmod a b

namespace StoryCarousel

/-- `nextSlide()` (api-client.js:723):
`this.currentSlide = (this.currentSlide + 1) % this.totalSlides`. -/
def nextSlide (N c : Int) : Int := jsRem (c + 1) N

/-- `prevSlide()` (api-client.js:728):
`this.currentSlide = (this.currentSlide - 1 + this.totalSlides) % this.totalSlides`. -/
def prevSlide (N c : Int) : Int := jsRem (c - 1 + N) N

/-- `goToSlide(index)` (api-client.js:717): sets
`this.currentSlide = index` unconditionally — there is no range check. -/
def goToSlide (_c index : Int) : Int := index

/-- `handleSwipe(startX, endX)` (api-client.js:704): with
`diff = startX - endX` and `threshold = 50`, navigates once
(`nextSlide` when `diff > 0`, else `prevSlide`) iff `|diff| > 50`.
Returns the resulting cursor together with the number of navigation
calls made. -/
def handleSwipe (N c : Int) (startX endX : ℚ) : Int × Nat :=
  if 50 < |startX - endX| then
    if 0 < startX - endX then (nextSlide N c, 1) else (prevSlide N c, 1)
  else (c, 0)

end StoryCarousel

namespace AdvancedHeroCarousel

/-- `nextSlide()` (api-client.js:1391):
`this.currentIndex = (this.currentIndex + 1) % this.totalItems`. -/
def nextSlide (N c : Int) : Int := jsRem (c + 1) N

/-- `prevSlide()` (api-client.js:1396):
`this.currentIndex = (this.currentIndex - 1 + this.totalItems) % this.totalItems`. -/
def prevSlide (N c : Int) : Int := jsRem (c - 1 + N) N

/-- `goToSlide(index)` (api-client.js:1401): guarded by
`if (index >= 0 && index < this.totalItems)`; otherwise the cursor is
left unchanged. -/
def goToSlide (N c index : Int) : Int :=
  if 0 ≤ index ∧ index < N then index else c

/-- `handleSwipe(startX, endX)` (api-client.js:1320): identical navigation
logic to the story carousel (`threshold = 50`, `diff = startX - endX`);
the additional `resetAutoPlay()` call does not touch the cursor. -/
def handleSwipe (N c : Int) (startX endX : ℚ) : Int × Nat :=
  if 50 < |startX - endX| then
    if 0 < startX - endX then (nextSlide N c, 1) else (prevSlide N c, 1)
  else (c, 0)

end AdvancedHeroCarousel

/-- One navigation call on a carousel: `nextSlide()` or `prevSlide()`. -/
inductive NavCall
  | next
  | prev
deriving DecidableEq

/-- Running a finite sequence of `nextSlide`/`prevSlide` calls on a story
carousel with `N` slides, starting from cursor `c`. -/
def runCalls (N : Int) : List NavCall → Int → Int
  | [], c => c
  | NavCall.next :: rest, c => runCalls N rest (StoryCarousel.nextSlide N c)
  | NavCall.prev :: rest, c => runCalls N rest (StoryCarousel.prevSlide N c)

/-- Number of `nextSlide` calls in a call sequence (as an integer). -/
def nextCount : List NavCall → Int
  | [] => 0
  | NavCall.next :: rest => nextCount rest + 1
  | NavCall.prev :: rest => nextCount rest

/-- Number of `prevSlide` calls in a call sequence (as an integer). -/
def prevCount : List NavCall → Int
  | [] => 0
  | NavCall.next :: rest => prevCount rest
  | NavCall.prev :: rest => prevCount rest + 1

/-- On an in-range cursor, `nextSlide` computes the Euclidean remainder
`(c + 1) % N`: the truncating JS remainder agrees with it because the
dividend `c + 1` is nonnegative. -/
theorem nextSlide_eq_emod {N c : Int} (hN : 0 < N) (hc : 0 ≤ c) :
    StoryCarousel.nextSlide N c = (c + 1) % N := by
  unfold StoryCarousel.nextSlide jsRem
  exact Int.tmod_eq_emod (by omega) (by omega)

/-- On an in-range cursor, `prevSlide` computes `(c - 1 + N) % N`. -/
theorem prevSlide_eq_emod {N c : Int} (hN : 0 < N) (hc : 0 ≤ c) :
    StoryCarousel.prevSlide N c = (c - 1 + N) % N := by
  unfold StoryCarousel.prevSlide jsRem
  exact Int.tmod_eq_emod (by omega) (by omega)

/-- C1: for every slide count N ≥ 1, every initial cursor in `[0, N)` and
every finite sequence of `nextSlide`/`prevSlide` calls, the final cursor is
`(c0 + nextCount − prevCount) mod N`, and the cursor stays in `[0, N)`
(every intermediate cursor is the final cursor of a prefix, so the bound
holds at every intermediate point as well); moreover the hero carousel's
`nextSlide`/`prevSlide` compute exactly the same functions as the story
carousel's, so the trajectory law covers both carousels. -/
theorem c1_cursor_trajectory (N : Int) (ops : List NavCall) (c0 : Int)
    (hN : 1 ≤ N) (h0 : 0 ≤ c0) (h1 : c0 < N) :
    runCalls N ops c0 = (c0 + nextCount ops - prevCount ops) % N ∧
    (0 ≤ runCalls N ops c0 ∧ runCalls N ops c0 < N) ∧
    (∀ M d : Int, AdvancedHeroCarousel.nextSlide M d = StoryCarousel.nextSlide M d ∧
      AdvancedHeroCarousel.prevSlide M d = StoryCarousel.prevSlide M d) := by
  refine ⟨?_, ?_, fun M d => ⟨rfl, rfl⟩⟩
  · induction ops generalizing c0 with
    | nil =>
      simp only [runCalls, nextCount, prevCount]
      rw [show c0 + 0 - 0 = c0 by ring, Int.emod_eq_of_lt h0 h1]
    | cons op rest ih =>
      cases op with
      | next =>
        simp only [runCalls, nextCount, prevCount]
        rw [nextSlide_eq_emod (by omega) h0]
        rw [ih ((c0 + 1) % N) (Int.emod_nonneg _ (by omega))
          (Int.emod_lt_of_pos _ (by omega))]
        rw [show (c0 + 1) % N + nextCount rest - prevCount rest
            = (c0 + 1) % N + (nextCount rest - prevCount rest) by ring]
        rw [Int.emod_add_emod]
        ring_nf
      | prev =>
        simp only [runCalls, nextCount, prevCount]
        rw [prevSlide_eq_emod (by omega) h0]
        rw [ih ((c0 - 1 + N) % N) (Int.emod_nonneg _ (by omega))
          (Int.emod_lt_of_pos _ (by omega))]
        rw [show (c0 - 1 + N) % N + nextCount rest - prevCount rest
            = (c0 - 1 + N) % N + (nextCount rest - prevCount rest) by ring]
        rw [Int.emod_add_emod]
        rw [show c0 - 1 + N + (nextCount rest - prevCount rest)
            = (c0 + nextCount rest - (prevCount rest + 1)) + N by ring]
        rw [Int.add_emod_self]
  · induction ops generalizing c0 with
    | nil => exact ⟨h0, h1⟩
    | cons op rest ih =>
      cases op with
      | next =>
        simp only [runCalls]
        have hnn : 0 ≤ StoryCarousel.nextSlide N c0 := by
          rw [nextSlide_eq_emod (by omega) h0]
          exact Int.emod_nonneg _ (by omega)
        have hlt : StoryCarousel.nextSlide N c0 < N := by
          rw [nextSlide_eq_emod (by omega) h0]
          exact Int.emod_lt_of_pos _ (by omega)
        exact ih _ hnn hlt
      | prev =>
        simp only [runCalls]
        have hnn : 0 ≤ StoryCarousel.prevSlide N c0 := by
          rw [prevSlide_eq_emod (by omega) h0]
          exact Int.emod_nonneg _ (by omega)
        have hlt : StoryCarousel.prevSlide N c0 < N := by
          rw [prevSlide_eq_emod (by omega) h0]
          exact Int.emod_lt_of_pos _ (by omega)
        exact ih _ hnn hlt

/-- C1 witness: the spec's concrete scenario — N = 5, cursor 0, three
`next` calls then five `previous` calls end at cursor 3 = (0 + 3 − 5) mod 5,
in range. -/
theorem c1_cursor_trajectory_witness :
    runCalls 5 [NavCall.next, NavCall.next, NavCall.next, NavCall.prev,
      NavCall.prev, NavCall.prev, NavCall.prev, NavCall.prev] 0
      = (0 + 3 - 5) % 5 ∧ runCalls 5 [NavCall.next] 0 = 1 := by
  have h := c1_cursor_trajectory 5
    [NavCall.next, NavCall.next, NavCall.next, NavCall.prev,
      NavCall.prev, NavCall.prev, NavCall.prev, NavCall.prev] 0
    (by decide) (by decide) (by decide)
  refine ⟨?_, by decide⟩
  rw [h.1]
  decide

/-- C2 counterexample: the story carousel's `goToSlide` performs no range
check — with the cursor at 0 and the out-of-range index 7 (slide count 5),
the cursor becomes 7 instead of staying 0, so out-of-range `goto` is not
ignored on every carousel instance. -/
theorem c2_goto_counterexample :
    StoryCarousel.goToSlide 0 7 = 7 ∧ StoryCarousel.goToSlide 0 7 ≠ 0 ∧
      ¬(0 ≤ (7 : Int) ∧ (7 : Int) < 5) := by
  refine ⟨rfl, by decide, by decide⟩

/-- C2 (amended): only the hero carousel's `goToSlide` silently ignores
out-of-range indices, leaving the cursor unchanged; the story carousel's
`goToSlide` sets the cursor to the given index unconditionally, with no
range check. -/
theorem c2_goto_out_of_range :
    (∀ N c index : Int, ¬(0 ≤ index ∧ index < N) →
      AdvancedHeroCarousel.goToSlide N c index = c) ∧
    (∀ c index : Int, StoryCarousel.goToSlide c index = index) := by
  refine ⟨fun N c index h => ?_, fun c index => rfl⟩
  simp only [AdvancedHeroCarousel.goToSlide, if_neg h]

/-- C2 witness: hero carousel with 5 slides, cursor 2, `goToSlide(7)`
leaves the cursor at 2; the story carousel moves it to 7. -/
theorem c2_goto_out_of_range_witness :
    AdvancedHeroCarousel.goToSlide 5 2 7 = 2 ∧ StoryCarousel.goToSlide 2 7 = 7 :=
  ⟨c2_goto_out_of_range.1 5 2 7 (by decide), c2_goto_out_of_range.2 2 7⟩

/-- C8: on both carousels, a swipe whose horizontal delta `diff =
startX − endX` satisfies `|diff| > 50` triggers exactly one navigation —
`nextSlide` when leftward (`diff > 0`), `prevSlide` when rightward
(`diff < 0`) — and a delta with `|diff| ≤ 50` triggers none. -/
theorem c8_swipe_threshold (N c : Int) (sx ex : ℚ) :
    ((50 < |sx - ex| ∧ 0 < sx - ex) →
      StoryCarousel.handleSwipe N c sx ex = (StoryCarousel.nextSlide N c, 1) ∧
      AdvancedHeroCarousel.handleSwipe N c sx ex = (AdvancedHeroCarousel.nextSlide N c, 1)) ∧
    ((50 < |sx - ex| ∧ sx - ex < 0) →
      StoryCarousel.handleSwipe N c sx ex = (StoryCarousel.prevSlide N c, 1) ∧
      AdvancedHeroCarousel.handleSwipe N c sx ex = (AdvancedHeroCarousel.prevSlide N c, 1)) ∧
    (|sx - ex| ≤ 50 →
      StoryCarousel.handleSwipe N c sx ex = (c, 0) ∧
      AdvancedHeroCarousel.handleSwipe N c sx ex = (c, 0)) := by
  refine ⟨fun h => ?_, fun h => ?_, fun h => ?_⟩ <;>
    simp only [StoryCarousel.handleSwipe, AdvancedHeroCarousel.handleSwipe]
  · simp only [if_pos h.1, if_pos h.2]
    exact ⟨trivial, trivial⟩
  · simp only [if_pos h.1, if_neg (not_lt.2 (le_of_lt h.2))]
    exact ⟨trivial, trivial⟩
  · simp only [if_neg (not_lt.2 h)]
    exact ⟨trivial, trivial⟩

/-- C8 witness: a 51-pixel leftward delta triggers exactly one `nextSlide`;
a 49-pixel delta triggers no navigation (story carousel, 5 slides,
cursor 0). -/
theorem c8_swipe_threshold_witness :
    StoryCarousel.handleSwipe 5 0 51 0 = (StoryCarousel.nextSlide 5 0, 1) ∧
    StoryCarousel.handleSwipe 5 0 49 0 = (0, 0) :=
  ⟨((c8_swipe_threshold 5 0 51 0).1 ⟨by norm_num, by norm_num⟩).1,
    ((c8_swipe_threshold 5 0 49 0).2.2 (by norm_num)).1⟩

/-! ## Auto-play timer state (StoryCarousel, api-client.js:757-786)

`setInterval` is modelled by drawing a fresh handle from a counter and
adding it to the list of live (scheduled, not yet cleared) intervals;
`clearInterval h` removes `h` from that list. -/

/-- Timer-relevant state of a `StoryCarousel` instance: the
`isAutoPlaying` flag, the stored `autoPlayInterval` handle, the handles of
all intervals scheduled and not yet cleared, and the fresh-handle
counter. -/
structure TimerState where
  isAutoPlaying : Bool
  autoPlayInterval : Option Nat
  live : List Nat
  fresh : Nat
deriving DecidableEq

namespace StoryCarousel

/-- `startAutoPlay()` (api-client.js:757): sets the flag and
unconditionally schedules a new interval, overwriting the stored handle;
an already-running interval is not cleared first. -/
def startAutoPlay (s : TimerState) : TimerState :=
  { isAutoPlaying := true
    autoPlayInterval := some s.fresh
    live := s.fresh :: s.live
    fresh := s.fresh + 1 }

/-- `stopAutoPlay()` (api-client.js:766): clears the flag; if a handle is
stored, `clearInterval` cancels it and the field is nulled. -/
def stopAutoPlay (s : TimerState) : TimerState :=
  match s.autoPlayInterval with
  | none => { s with isAutoPlaying := false }
  | some h =>
    { isAutoPlaying := false
      autoPlayInterval := none
      live := s.live.erase h
      fresh := s.fresh }

/-- `toggleAutoPlay()` (api-client.js:776): stop when playing, start
otherwise. -/
def toggleAutoPlay (s : TimerState) : TimerState :=
  if s.isAutoPlaying then stopAutoPlay s else startAutoPlay s

end StoryCarousel

/-- Timer state of a freshly constructed carousel (api-client.js:629-634):
`autoPlayInterval = null`, `isAutoPlaying = false`, nothing scheduled. -/
def initTimerState : TimerState := ⟨false, none, [], 0⟩

/-- Consistency of a timer state: at most one scheduled interval is live,
the stored handle is exactly that interval, and the flag mirrors whether a
handle is stored. -/
def timerConsistent (s : TimerState) : Bool :=
  (match s.live, s.autoPlayInterval with
   | [], none => true
   | [h], some h' => h == h'
   | _, _ => false) && (s.isAutoPlaying == s.autoPlayInterval.isSome)

/-- C3 counterexample: `startAutoPlay()` while auto-play is already
running is not a no-op — two consecutive `startAutoPlay()` calls from the
initial state leave two concurrently scheduled live intervals, the first
of which can no longer be cleared. -/
theorem c3_autoplay_counterexample :
    (StoryCarousel.startAutoPlay (StoryCarousel.startAutoPlay initTimerState)).live.length = 2 ∧
    StoryCarousel.startAutoPlay (StoryCarousel.startAutoPlay initTimerState)
      ≠ StoryCarousel.startAutoPlay initTimerState := by
  decide

/-- C3 (amended): `stopAutoPlay()` while already stopped is a no-op, and
the stop/toggle operations preserve the at-most-one-live-interval
invariant (as does `startAutoPlay` from a state with no stored handle);
but `startAutoPlay()` while already running schedules a second interval
without cancelling the first, so a start–start sequence leaves two live
timers. -/
theorem c3_autoplay_timer :
    (∀ s : TimerState, s.isAutoPlaying = false → s.autoPlayInterval = none →
      StoryCarousel.stopAutoPlay s = s) ∧
    (∀ s : TimerState, timerConsistent s = true →
      timerConsistent (StoryCarousel.stopAutoPlay s) = true ∧
      timerConsistent (StoryCarousel.toggleAutoPlay s) = true ∧
      (s.autoPlayInterval = none →
        timerConsistent (StoryCarousel.startAutoPlay s) = true)) ∧
    (StoryCarousel.startAutoPlay (StoryCarousel.startAutoPlay initTimerState)).live
      = [1, 0] := by
  refine ⟨fun s h1 h2 => ?_, fun s hs => ?_, by decide⟩
  · obtain ⟨a, b, l, f⟩ := s
    cases h1
    cases h2
    rfl
  · obtain ⟨a, b, l, f⟩ := s
    cases b with
    | none =>
      rcases l with _ | ⟨h, t⟩
      · cases a with
        | false =>
          refine ⟨rfl, ?_, fun _ => ?_⟩ <;>
            simp [StoryCarousel.toggleAutoPlay, StoryCarousel.startAutoPlay,
              StoryCarousel.stopAutoPlay, timerConsistent]
        | true => simp [timerConsistent] at hs
      · simp [timerConsistent] at hs
    | some h' =>
      rcases l with _ | ⟨h, t⟩
      · simp [timerConsistent] at hs
      · rcases t with _ | ⟨h2, t2⟩
        · simp only [timerConsistent, Bool.and_eq_true, beq_iff_eq] at hs
          obtain ⟨hhh, hflag⟩ := hs
          cases hhh
          cases a with
          | false => simp at hflag
          | true =>
            refine ⟨?_, ?_, fun hnone => nomatch hnone⟩ <;>
              simp [StoryCarousel.toggleAutoPlay, StoryCarousel.stopAutoPlay,
                timerConsistent, List.erase_cons_head]
        · simp [timerConsistent] at hs

/-- C3 witness: on the initial (stopped) state, `stopAutoPlay` is the
identity, and toggling from a consistent one-interval state keeps at most
one live interval. -/
theorem c3_autoplay_timer_witness :
    StoryCarousel.stopAutoPlay initTimerState = initTimerState ∧
    timerConsistent (StoryCarousel.toggleAutoPlay ⟨true, some 0, [0], 1⟩) = true :=
  ⟨c3_autoplay_timer.1 initTimerState rfl rfl,
    ((c3_autoplay_timer.2.1 ⟨true, some 0, [0], 1⟩ (by decide)).2.1)⟩

/-! ## Render step and optional DOM collaborators -/

/-- DOM elements the story carousel's `updateSlide` dereferences: whether
`#storySlides` and `#storyProgress` exist, and how many
`.story-indicator` elements there are. -/
structure StoryDom where
  storySlides : Bool
  storyProgress : Bool
  indicatorCount : Nat
deriving DecidableEq

/-- Result of a completed story render: the slide-strip translation (in
percent, negated as in `translateX(-c*100%)`), the progress-bar fill in
percent, and the index of the indicator flagged active. -/
structure StoryRender where
  translatePercent : ℚ
  progressPercent : ℚ
  activeIndicator : Int
deriving DecidableEq

namespace StoryCarousel

/-- `updateSlide()` (api-client.js:733): dereferences `#storySlides`
(line 739) and then `#storyProgress` (line 743) without presence checks —
a missing element raises a `TypeError`; the indicator update iterates over
however many indicators exist (possibly none), which cannot fail. -/
def updateSlide (dom : StoryDom) (N c : Int) : Except String StoryRender :=
  if dom.storySlides then
    if dom.storyProgress then
      Except.ok ⟨-(c * 100), ((c : ℚ) + 1) / (N : ℚ) * 100, c⟩
    else Except.error "TypeError: progressBar is null"
  else Except.error "TypeError: slidesContainer is null"

end StoryCarousel

/-- DOM elements relevant to the hero carousel's render: whether
`#progressBar` exists (the constructor looks it up and `updateCarousel`
guards on it), plus the item and dot collections. -/
structure HeroDom where
  progressBar : Bool
  itemCount : Nat
  dotCount : Nat
deriving DecidableEq

/-- Result of a hero render: the active item index and the progress-bar
fill, `none` when the progress bar is absent and the feature is skipped. -/
structure HeroRender where
  activeIndex : Int
  progressPercent : Option ℚ
deriving DecidableEq

namespace AdvancedHeroCarousel

/-- `updateCarousel()` (api-client.js:1334): items and dots are updated by
iterating over whatever elements exist; the progress-bar write is guarded
by `if (this.progressBar)` (line 1378) and skipped when the element is
absent, so the render has no throwing path. -/
def updateCarousel (dom : HeroDom) (N c : Int) : Except String HeroRender :=
  Except.ok ⟨c, if dom.progressBar then some (((c : ℚ) + 1) / (N : ℚ) * 100) else none⟩

end AdvancedHeroCarousel

/-- C4 counterexample: the story carousel's render crashes when the
optional progress-bar element is absent — `updateSlide` with
`#storySlides` present but `#storyProgress` missing raises a `TypeError`
instead of skipping the feature. -/
theorem c4_render_counterexample :
    StoryCarousel.updateSlide ⟨true, false, 3⟩ 5 0
      = Except.error "TypeError: progressBar is null" := rfl

/-- C4 (amended): the hero carousel's `updateCarousel` never throws — a
missing progress bar is skipped silently and the rest of the render
completes — but the story carousel's `updateSlide` dereferences the
slides container and progress bar unconditionally and only completes when
both are present. -/
theorem c4_render_optional_dom :
    (∀ (dom : HeroDom) (N c : Int),
      ∃ r : HeroRender, AdvancedHeroCarousel.updateCarousel dom N c = Except.ok r) ∧
    (∀ (dom : StoryDom) (N c : Int), dom.storySlides = true →
      dom.storyProgress = true →
      ∃ r : StoryRender, StoryCarousel.updateSlide dom N c = Except.ok r) := by
  constructor
  · intro dom N c
    exact ⟨_, rfl⟩
  · intro dom N c h1 h2
    simp only [StoryCarousel.updateSlide, h1, h2, if_true]
    exact ⟨_, rfl⟩

/-- C4 witness: the hero render completes with the progress bar absent
(fill skipped), and the story render completes when both elements are
present. -/
theorem c4_render_optional_dom_witness :
    (∃ r : HeroRender, AdvancedHeroCarousel.updateCarousel ⟨false, 4, 4⟩ 4 1 = Except.ok r) ∧
    (∃ r : StoryRender, StoryCarousel.updateSlide ⟨true, true, 3⟩ 5 0 = Except.ok r) :=
  ⟨c4_render_optional_dom.1 ⟨false, 4, 4⟩ 4 1,
    c4_render_optional_dom.2 ⟨true, true, 3⟩ 5 0 rfl rfl⟩

/-! ## Scroll-driven reveal (api-client.js, ScrollReveal3D and
ProgressiveScrollReveal)

Geometry is embedded over `ℚ`; the literal `0.1` is taken as `1/10`. -/

/-- Vertical extent of an element's bounding client rect. -/
structure Rect where
  top : ℚ
  bottom : ℚ
deriving DecidableEq

namespace ProgressiveScrollReveal

/-- `isInViewport(element, threshold)` (api-client.js:1824): computes
`visibleHeight = min(bottom, windowHeight) - max(top, 0)` and tests
`visibleHeight / height > threshold` where `height = bottom - top`. -/
def isInViewport (wh : ℚ) (r : Rect) (threshold : ℚ) : Bool :=
  decide (threshold < (min r.bottom wh - max r.top 0) / (r.bottom - r.top))

/-- `updateScrollProgress()` (api-client.js:1790): the fill written to the
`#scrollProgress` indicator (when present):
`Math.min(scrolled / (scrollHeight - innerHeight) * 100, 100)`. -/
def updateScrollProgress (scrollHeight innerHeight pageYOffset : ℚ) : ℚ :=
  min (pageYOffset / (scrollHeight - innerHeight) * 100) 100

end ProgressiveScrollReveal

namespace ScrollReveal3D

/-- `isInViewport(element)` (api-client.js:1666): with
`threshold = windowHeight * 0.1`, tests containment in the expanded
viewport: `top >= -threshold && bottom <= windowHeight + threshold`. -/
def isInViewport (wh : ℚ) (r : Rect) : Bool :=
  decide (-(wh * (1 / 10)) ≤ r.top ∧ r.bottom ≤ wh + wh * (1 / 10))

end ScrollReveal3D

/-- Modelled from the spec for the refinement comparison: the fraction of
the element's bounding box that vertically overlaps the viewport
`[0, windowHeight]` (an off-screen element overlaps nothing, fraction
zero). -/
def specVisibleFraction (wh : ℚ) (r : Rect) : ℚ :=
  max (min r.bottom wh - max r.top 0) 0 / (r.bottom - r.top)

/-- C5 counterexample: under `ScrollReveal3D`, the element with rect
`[1050, 1090]` in a 1000-pixel viewport is entirely below the fold — its
visible fraction is 0, below every positive threshold — and yet
`isInViewport` returns `true` (the containment test accepts anything
inside the 10%-expanded viewport), so that subsystem reveals elements
whose visibility ratio does not exceed the threshold. -/
theorem c5_reveal_counterexample :
    ScrollReveal3D.isInViewport 1000 ⟨1050, 1090⟩ = true ∧
    specVisibleFraction 1000 ⟨1050, 1090⟩ = 0 ∧
    ProgressiveScrollReveal.isInViewport 1000 ⟨1050, 1090⟩ (1 / 10) = false := by
  refine ⟨?_, ?_, ?_⟩
  · simp only [ScrollReveal3D.isInViewport, decide_eq_true_eq]
    norm_num
  · simp only [specVisibleFraction]
    norm_num
  · simp only [ProgressiveScrollReveal.isInViewport, decide_eq_false_iff_not, not_lt]
    norm_num

/-- C5 (amended): the `ProgressiveScrollReveal` viewport test (used with
thresholds 0.1 and 0.2) succeeds exactly when the fraction of the
element's bounding box overlapping the viewport exceeds the threshold;
the `ScrollReveal3D` test is instead containment of the whole rect in the
viewport expanded by 10% of its height on each side. -/
theorem c5_reveal_threshold (wh : ℚ) (r : Rect) (t : ℚ)
    (ht : 0 < t) (hh : r.top < r.bottom) :
    (ProgressiveScrollReveal.isInViewport wh r t = true ↔
      t < specVisibleFraction wh r) ∧
    (ScrollReveal3D.isInViewport wh r = true ↔
      -(wh / 10) ≤ r.top ∧ r.bottom ≤ wh + wh / 10) := by
  constructor
  · simp only [ProgressiveScrollReveal.isInViewport, specVisibleFraction,
      decide_eq_true_eq]
    rcases le_or_lt 0 (min r.bottom wh - max r.top 0) with hv | hv
    · rw [max_eq_left hv]
    · have hpos : (0 : ℚ) < r.bottom - r.top := by linarith
      have h1 : (min r.bottom wh - max r.top 0) / (r.bottom - r.top) < 0 :=
        div_neg_of_neg_of_pos hv hpos
      rw [max_eq_right (le_of_lt hv), zero_div]
      constructor <;> intro hc <;> linarith
  · simp only [ScrollReveal3D.isInViewport, decide_eq_true_eq]
    constructor <;> intro hc <;>
      exact ⟨by linarith [hc.1], by linarith [hc.2]⟩

/-- C5 witness: an element occupying `[0, 200]` of a 1000-pixel viewport
has visible fraction 1 > 0.1 and the progressive test reveals it; the
`ScrollReveal3D` test on the same element is the expanded containment
check. -/
theorem c5_reveal_threshold_witness :
    ProgressiveScrollReveal.isInViewport 1000 ⟨0, 200⟩ (1 / 10) = true ∧
    ScrollReveal3D.isInViewport 1000 ⟨0, 200⟩ = true := by
  have h := c5_reveal_threshold 1000 ⟨0, 200⟩ (1 / 10) (by norm_num) (by norm_num)
  constructor
  · rw [h.1]
    simp only [specVisibleFraction]
    norm_num
  · rw [h.2]
    norm_num

/-- One scroll or resize tick as seen by a single reveal element: the
viewport height and the element's bounding rect at that tick. -/
structure Tick where
  wh : ℚ
  rect : Rect

namespace ScrollReveal3D

/-- One `checkElements()` pass (api-client.js:1658) restricted to a single
element: `revealElement` (api-client.js:1676) adds the `revealed` class
when the viewport test passes and never removes it. -/
def checkElement (revealed : Bool) (e : Tick) : Bool :=
  if isInViewport e.wh e.rect then true else revealed

/-- The element's `revealed` state after a sequence of scroll/resize
ticks. -/
def runTicks (revealed : Bool) (es : List Tick) : Bool :=
  es.foldl checkElement revealed

end ScrollReveal3D

namespace ProgressiveScrollReveal

/-- One `checkElements()` pass (api-client.js:1800) restricted to a single
element with a caller-chosen threshold: `classList.add` only ever adds the
reveal class. -/
def checkElement (t : ℚ) (revealed : Bool) (e : Tick) : Bool :=
  if isInViewport e.wh e.rect t then true else revealed

/-- The element's reveal state after a sequence of scroll/resize ticks. -/
def runTicks (t : ℚ) (revealed : Bool) (es : List Tick) : Bool :=
  es.foldl (checkElement t) revealed

end ProgressiveScrollReveal

/-- C6: the reveal state is monotonic in both subsystems — once an
element's revealed flag is true, every subsequent sequence of scroll and
resize ticks (including ones that move the element fully out of view)
leaves it true. -/
theorem c6_reveal_monotonic :
    (∀ es : List Tick, ScrollReveal3D.runTicks true es = true) ∧
    (∀ (t : ℚ) (es : List Tick), ProgressiveScrollReveal.runTicks t true es = true) := by
  constructor
  · intro es
    induction es with
    | nil => rfl
    | cons e rest ih =>
      simp only [ScrollReveal3D.runTicks, List.foldl_cons,
        ScrollReveal3D.checkElement, ite_self]
      exact ih
  · intro t es
    induction es with
    | nil => rfl
    | cons e rest ih =>
      simp only [ProgressiveScrollReveal.runTicks, List.foldl_cons,
        ProgressiveScrollReveal.checkElement, ite_self]
      exact ih

/-- C7 counterexample: on a page shorter than the viewport
(`scrollHeight = 50`, `innerHeight = 100`) with `scrolled = 10`, the
progress fill is −20, outside `[0, 100]` — the code clamps only from
above with `Math.min(·, 100)` and never from below at 0. -/
theorem c7_progress_counterexample :
    ProgressiveScrollReveal.updateScrollProgress 50 100 10 = -20 ∧
    ProgressiveScrollReveal.updateScrollProgress 50 100 10 < 0 := by
  have h : ProgressiveScrollReveal.updateScrollProgress 50 100 10 = -20 := by
    simp only [ProgressiveScrollReveal.updateScrollProgress]
    norm_num [min_def]
  exact ⟨h, by rw [h]; norm_num⟩

/-- C7 (amended): the progress fill is the continuous fraction
`scrolled / (scrollHeight − viewportHeight) · 100` clamped from above at
100 only; when the page is taller than the viewport and the scroll offset
is nonnegative the value lies in `[0, 100]` (and equals the raw fraction
whenever that fraction is at most 100), but nothing clamps negative
values to 0. -/
theorem c7_progress_clamp (scrollHeight innerHeight pageYOffset : ℚ)
    (hdoc : innerHeight < scrollHeight) (hpos : 0 ≤ pageYOffset) :
    0 ≤ ProgressiveScrollReveal.updateScrollProgress scrollHeight innerHeight pageYOffset ∧
    ProgressiveScrollReveal.updateScrollProgress scrollHeight innerHeight pageYOffset ≤ 100 ∧
    (pageYOffset ≤ scrollHeight - innerHeight →
      ProgressiveScrollReveal.updateScrollProgress scrollHeight innerHeight pageYOffset
        = pageYOffset / (scrollHeight - innerHeight) * 100) := by
  have hd : (0 : ℚ) < scrollHeight - innerHeight := by linarith
  have hfrac : 0 ≤ pageYOffset / (scrollHeight - innerHeight) * 100 := by
    have := div_nonneg hpos (le_of_lt hd)
    linarith
  refine ⟨le_min hfrac (by norm_num), min_le_right _ _, fun hle => ?_⟩
  have hle1 : pageYOffset / (scrollHeight - innerHeight) ≤ 1 :=
    (div_le_one hd).2 hle
  exact min_eq_left (by linarith)

/-- C7 witness: page of scroll height 200, viewport 100, scrolled 50 —
the fill is 50, inside `[0, 100]`. -/
theorem c7_progress_clamp_witness :
    0 ≤ ProgressiveScrollReveal.updateScrollProgress 200 100 50 ∧
    ProgressiveScrollReveal.updateScrollProgress 200 100 50 ≤ 100 :=
  ⟨(c7_progress_clamp 200 100 50 (by norm_num) (by norm_num)).1,
    (c7_progress_clamp 200 100 50 (by norm_num) (by norm_num)).2.1⟩

/-! ## Identity-service error mapping (Firebase auth module)

Each operation's `catch` block maps the provider rejection to a
`{success: false, message}` result; the embedding covers exactly those
branches. A falsy `error.message` is represented by the empty string. -/

/-- A provider rejection as observed in a `catch` block. -/
structure AuthError where
  code : String
  message : String
deriving DecidableEq

/-- The `{success, message}` object returned to the caller. -/
structure AuthResult where
  success : Bool
  message : String
deriving DecidableEq

namespace firebaseAuth

/-- The catch branch of `register` (part_000:177-200): a `switch` over
`error.code` picks a localized message with a generic default, but the
function returns `message: error.message || message`, preferring the raw
provider message whenever it is non-empty. -/
def registerCatch (e : AuthError) : AuthResult :=
  let message :=
    if e.code = "auth/email-already-in-use" then "Email này đã được sử dụng!"
    else if e.code = "auth/invalid-email" then "Email không hợp lệ!"
    else if e.code = "auth/weak-password" then
      "Mật khẩu quá yếu! Vui lòng chọn mật khẩu mạnh hơn."
    else if e.code = "auth/operation-not-allowed" then
      "Đăng ký bằng email chưa được kích hoạt!"
    else "Đã có lỗi xảy ra khi đăng ký!"
  ⟨false, if e.message = "" then message else e.message⟩

/-- The catch branch of `login` (part_000:219-245): returns the mapped
message, falling back to the generic one for unrecognized codes. -/
def loginCatch (e : AuthError) : AuthResult :=
  ⟨false,
    if e.code = "auth/user-not-found" then "Không tìm thấy tài khoản với email này!"
    else if e.code = "auth/wrong-password" then "Mật khẩu không đúng!"
    else if e.code = "auth/invalid-email" then "Email không hợp lệ!"
    else if e.code = "auth/user-disabled" then "Tài khoản đã bị khóa!"
    else if e.code = "auth/too-many-requests" then
      "Quá nhiều lần thử. Vui lòng thử lại sau!"
    else "Đã có lỗi xảy ra khi đăng nhập!"⟩

/-- The catch branch of `loginWithGoogle` (part_000:265-285). -/
def loginWithGoogleCatch (e : AuthError) : AuthResult :=
  ⟨false,
    if e.code = "auth/popup-closed-by-user" then "Đăng nhập bị hủy!"
    else if e.code = "auth/popup-blocked" then
      "Popup bị chặn! Vui lòng cho phép popup và thử lại."
    else if e.code = "auth/account-exists-with-different-credential" then
      "Tài khoản đã tồn tại với phương thức đăng nhập khác!"
    else "Đã có lỗi xảy ra khi đăng nhập Google!"⟩

/-- The catch branch of `resetPassword` (part_000:296-313). -/
def resetPasswordCatch (e : AuthError) : AuthResult :=
  ⟨false,
    if e.code = "auth/user-not-found" then "Không tìm thấy tài khoản với email này!"
    else if e.code = "auth/invalid-email" then "Email không hợp lệ!"
    else "Đã có lỗi xảy ra khi gửi email!"⟩

end firebaseAuth

/-- C9 counterexample: for a `register` rejection with the unmapped code
`auth/network-request-failed` and a non-empty provider message, the
returned message is the raw provider message, not the operation's generic
localized fallback. -/
theorem c9_error_counterexample :
    firebaseAuth.registerCatch
        ⟨"auth/network-request-failed", "Firebase: Error (auth/network-request-failed)."⟩
      = ⟨false, "Firebase: Error (auth/network-request-failed)."⟩ ∧
    "Firebase: Error (auth/network-request-failed)." ≠ "Đã có lỗi xảy ra khi đăng ký!" := by
  constructor
  · decide
  · decide

/-- C9 (amended): per operation — for a provider rejection whose code is
outside that operation's own mapping table, `login`, `loginWithGoogle`
and `resetPassword` each return their generic localized fallback message;
`register` instead returns the raw provider error message whenever it is
non-empty, using the table/fallback only for an empty provider message.
Each conjunct carries only its own operation's table-exclusion hypothesis,
so a code mapped by one operation but not another (e.g.
`auth/wrong-password` for `resetPassword`) is still settled. -/
theorem c9_error_fallback (e : AuthError) :
    (e.code ∉ ["auth/user-not-found", "auth/wrong-password",
        "auth/invalid-email", "auth/user-disabled", "auth/too-many-requests"] →
      firebaseAuth.loginCatch e = ⟨false, "Đã có lỗi xảy ra khi đăng nhập!"⟩) ∧
    (e.code ∉ ["auth/popup-closed-by-user", "auth/popup-blocked",
        "auth/account-exists-with-different-credential"] →
      firebaseAuth.loginWithGoogleCatch e
        = ⟨false, "Đã có lỗi xảy ra khi đăng nhập Google!"⟩) ∧
    (e.code ∉ ["auth/user-not-found", "auth/invalid-email"] →
      firebaseAuth.resetPasswordCatch e
        = ⟨false, "Đã có lỗi xảy ra khi gửi email!"⟩) ∧
    (e.code ∉ ["auth/email-already-in-use", "auth/invalid-email",
        "auth/weak-password", "auth/operation-not-allowed"] →
      firebaseAuth.registerCatch e
        = ⟨false, if e.message = "" then "Đã có lỗi xảy ra khi đăng ký!"
            else e.message⟩) := by
  refine ⟨fun hl => ?_, fun hg => ?_, fun hr => ?_, fun hq => ?_⟩
  · simp only [List.mem_cons, List.not_mem_nil, or_false, not_or] at hl
    obtain ⟨l1, l2, l3, l4, l5⟩ := hl
    simp [firebaseAuth.loginCatch, l1, l2, l3, l4, l5]
  · simp only [List.mem_cons, List.not_mem_nil, or_false, not_or] at hg
    obtain ⟨g1, g2, g3⟩ := hg
    simp [firebaseAuth.loginWithGoogleCatch, g1, g2, g3]
  · simp only [List.mem_cons, List.not_mem_nil, or_false, not_or] at hr
    obtain ⟨r1, r2⟩ := hr
    simp [firebaseAuth.resetPasswordCatch, r1, r2]
  · simp only [List.mem_cons, List.not_mem_nil, or_false, not_or] at hq
    obtain ⟨q1, q2, q3, q4⟩ := hq
    simp [firebaseAuth.registerCatch, q1, q2, q3, q4]

/-- C9 witness: `resetPassword` with code `auth/wrong-password` — mapped
by `login` but outside reset's own table — returns reset's generic
fallback, and `login` with the fully unmapped code
`auth/network-request-failed` returns login's generic fallback. -/
theorem c9_error_fallback_witness :
    firebaseAuth.resetPasswordCatch
        ⟨"auth/wrong-password", "Firebase: Error (auth/wrong-password)."⟩
      = ⟨false, "Đã có lỗi xảy ra khi gửi email!"⟩ ∧
    firebaseAuth.loginCatch
        ⟨"auth/network-request-failed", "Firebase: Error (auth/network-request-failed)."⟩
      = ⟨false, "Đã có lỗi xảy ra khi đăng nhập!"⟩ :=
  ⟨(c9_error_fallback
      ⟨"auth/wrong-password", "Firebase: Error (auth/wrong-password)."⟩).2.2.1
      (by decide),
    (c9_error_fallback
      ⟨"auth/network-request-failed",
        "Firebase: Error (auth/network-request-failed)."⟩).1 (by decide)⟩

/-! ## GameAPI.getCurrentUserId (api-client.js:129-139)

`atob` and `JSON.parse` are external browser facilities; their combined
application to a token segment is taken as a parameter `decodePayload`
that returns `none` exactly when they would throw. Strings are embedded
as character lists so that `split('.')` is a structurally recursive
function a witness can evaluate. -/

/-- The decoded JWT payload; `sub` is `none` when the parsed object has no
`sub` property (JS `undefined`). -/
structure JwtPayload where
  sub : Option String
deriving DecidableEq

/-- `String.prototype.split('.')` on a character list: no limit, empty
segments kept. -/
def splitDot : List Char → List (List Char)
  | [] => [[]]
  | ch :: rest =>
    if ch = '.' then [] :: splitDot rest
    else
      match splitDot rest with
      | [] => [[ch]]
      | seg :: segs => (ch :: seg) :: segs

namespace GameAPI

/-- `getCurrentUserId()` (api-client.js:129): `if (!token) return null`
(an absent or empty token is falsy); otherwise
`JSON.parse(atob(token.split('.')[1])).sub` inside `try/catch`, returning
`null` on any throw. `split('.')[1]` on a dotless token is `undefined`,
and `atob(undefined)` coerces to the 9-character string `"undefined"`,
whose forgiving-base64 decode throws — so a missing second segment also
lands in the catch. -/
def getCurrentUserId (decodePayload : List Char → Option JwtPayload)
    (token : Option (List Char)) : Option String :=
  match token with
  | none => none
  | some t =>
    if t = [] then none
    else
      match (splitDot t).get? 1 with
      | none => none
      | some seg =>
        match decodePayload seg with
        | none => none
        | some payload => payload.sub

end GameAPI

/-- C10: `getCurrentUserId` is total (it is a Lean function) and never
throws: it returns `none` when no token is stored, when the token is the
empty (falsy) string, when the token has no second dot-separated segment,
and when the segment fails to decode as base64-encoded JSON; for a
well-formed token it returns the decoded payload's `sub` field. -/
theorem c10_getCurrentUserId_total
    (decodePayload : List Char → Option JwtPayload) :
    GameAPI.getCurrentUserId decodePayload none = none ∧
    GameAPI.getCurrentUserId decodePayload (some []) = none ∧
    (∀ t : List Char, t ≠ [] → (splitDot t).get? 1 = none →
      GameAPI.getCurrentUserId decodePayload (some t) = none) ∧
    (∀ t seg : List Char, t ≠ [] → (splitDot t).get? 1 = some seg →
      decodePayload seg = none →
      GameAPI.getCurrentUserId decodePayload (some t) = none) ∧
    (∀ (t seg : List Char) (p : JwtPayload), t ≠ [] →
      (splitDot t).get? 1 = some seg → decodePayload seg = some p →
      GameAPI.getCurrentUserId decodePayload (some t) = p.sub) := by
  refine ⟨rfl, rfl, ?_, ?_, ?_⟩
  · intro t ht hsplit
    simp only [List.get?_eq_getElem?] at hsplit
    simp [GameAPI.getCurrentUserId, ht, hsplit]
  · intro t seg ht hsplit hdec
    simp only [List.get?_eq_getElem?] at hsplit
    simp [GameAPI.getCurrentUserId, ht, hsplit, hdec]
  · intro t seg p ht hsplit hdec
    simp only [List.get?_eq_getElem?] at hsplit
    simp [GameAPI.getCurrentUserId, ht, hsplit, hdec]

/-- C10 witness: with a decoder that accepts only the segment `"e"` and
yields `sub = "u1"`, the token `"h.e"` produces `some "u1"`; the same
decoder on the dotless token `"h"` produces `none`. -/
theorem c10_getCurrentUserId_total_witness :
    GameAPI.getCurrentUserId
        (fun seg => if seg = ['e'] then some ⟨some "u1"⟩ else none)
        (some ['h', '.', 'e']) = some "u1" ∧
    GameAPI.getCurrentUserId
        (fun seg => if seg = ['e'] then some ⟨some "u1"⟩ else none)
        (some ['h']) = none :=
  ⟨(c10_getCurrentUserId_total _).2.2.2.2 ['h', '.', 'e'] ['e'] ⟨some "u1"⟩
      (by decide) (by decide) (by simp),
    (c10_getCurrentUserId_total _).2.2.1 ['h'] (by decide) (by decide)⟩

end Vuonruc
